import Mathlib

/-!
A shallow embedding of the SQLite-backed inventory CRUD module
(src/inventory_agent/inventory.py) together with proofs about the
documented behaviour of its five store operations.

Modelling conventions:
* Python/JSON scalar values are `Value` (null, number, string).  Numbers
  are rationals, covering both Python ints and floats for the purposes of
  the CRUD logic.  Collection-valued attributes are outside the model.
* A Python dict is an insertion-ordered association list (`PyDict`);
  `PyDict.WF` states key uniqueness, which real Python dicts guarantee.
* The items table is `Store`, a list of rows.  `Store.WF` records what is
  true of every reachable database: ids are unique (TEXT PRIMARY KEY) and
  non-empty (they are generated by uuid4).
* uuid4 generation is modelled by passing the generated id to `create_item`
  explicitly; freshness is a hypothesis where a claim needs it.
* SQLite column type affinity (for instance a numeric `category` being
  stored in text form) is not modelled; theorems about exact round-trips
  restrict field values to the declared column types, where the model is
  exact.
* Result dicts are the `Result` structure; a missing key is `none`.  The
  human-readable message strings are represented by the `Msg` inductive,
  one constructor per return site, carrying the interpolated data.
-/

/-- A Python/JSON scalar value as used by the inventory module: `None`,
a number, or a string. -/
inductive Value where
  | vNull : Value
  | vNum : Rat → Value
  | vStr : String → Value
deriving DecidableEq

/-- Python truthiness of a scalar value (`bool(v)`). -/
def Value.truthy : Value → Bool
  | .vNull => false
  | .vNum q => q != 0
  | .vStr s => s != ""

/-- A Python dict with string keys: an insertion-ordered association list. -/
abbrev PyDict := List (String × Value)

/-- Key lookup: `d[k]` when the key is present, `none` otherwise. -/
def PyDict.lookup? (d : PyDict) (k : String) : Option Value :=
  (d.find? (fun kv => kv.1 == k)).map (fun kv => kv.2)

/-- Lookup with a default, as in `d.get(k, v0)` / `d.pop(k, v0)`. -/
def PyDict.lookupD (d : PyDict) (k : String) (v0 : Value) : Value :=
  (d.lookup? k).getD v0

/-- Python `k in d`. -/
def PyDict.hasKey (d : PyDict) (k : String) : Bool :=
  d.any (fun kv => kv.1 == k)

/-- Python `d[k] = v`: overwrite in place when the key exists, else append. -/
def PyDict.setItem : PyDict → String → Value → PyDict
  | [], k, v => [(k, v)]
  | kv0 :: rest, k, v =>
    if kv0.1 == k then (kv0.1, v) :: rest else kv0 :: PyDict.setItem rest k v

/-- The key-removal part of Python `d.pop(k, default)`. -/
def PyDict.erase (d : PyDict) (k : String) : PyDict :=
  d.filter (fun kv => kv.1 != k)

/-- Python `d.update(other)`: assign each entry of `other` in order. -/
def PyDict.updateWith (d other : PyDict) : PyDict :=
  other.foldl (fun acc kv => acc.setItem kv.1 kv.2) d

/-- Python dict equality `==`: the same keys bound to equal values. -/
def PyDict.equiv (a b : PyDict) : Bool :=
  a.all (fun kv => b.lookup? kv.1 == some kv.2)
    && b.all (fun kv => a.lookup? kv.1 == some kv.2)

/-- Keys are pairwise distinct, as in a real Python dict. -/
def PyDict.WF (d : PyDict) : Prop :=
  (d.map Prod.fst).Nodup

/-- One row of the `items` table.  A NULL `price`/`category` column is
`Value.vNull`; `additional` is the deserialized `additional_data` JSON
document (an absent or NULL column deserializes to the empty dict). -/
structure Item where
  id : String
  name : Value
  price : Value
  category : Value
  additional : PyDict
deriving DecidableEq

/-- The whole `items` table. -/
abbrev Store := List Item

/-- Every database reachable through the module has pairwise distinct ids
(TEXT PRIMARY KEY) and non-empty ids (created by `str(uuid.uuid4())`). -/
def Store.WF (s : Store) : Prop :=
  (s.map Item.id).Nodup ∧ ∀ it ∈ s, it.id ≠ ""

instance (d : PyDict) : Decidable (PyDict.WF d) := by
  unfold PyDict.WF
  infer_instance

instance (s : Store) : Decidable (Store.WF s) := by
  unfold Store.WF
  exact And.decidable

/-- The status discriminator used by every returned result dict. -/
inductive Status where
  | success
  | error
  | info
  | warning
deriving DecidableEq

/-- One constructor per human-readable message produced by the module,
carrying the data interpolated into the f-string at that return site. -/
inductive Msg where
  | itemDataMustBeNonEmptyDict
  | nameRequired
  | itemCreated (name : Value) (id : String)
  | sqliteIntegrityError (id : String)
  | invalidItemIdMustBeString
  | itemNotFound (id : String)
  | noItemsMatchingCriteria
  | noItemsYet
  | invalidItemId
  | updateDataMustBeNonEmptyDict
  | cannotChangeId
  | itemNotFoundForUpdate (id : String)
  | noValidFields
  | itemUpdated (id : String)
  | updatedButNotRetrieved (id : String)
  | itemDeleted (name : Value) (id : String)
  | itemNotFoundForDeletion (id : String)
deriving DecidableEq

/-- The error taxonomy of the spec (section 7). -/
inductive ErrKind where
  | validationError
  | notFoundError
  | backingStoreError
deriving DecidableEq

/-- Classification of each message under the spec's error taxonomy;
`none` for messages of non-failure results. -/
def Msg.errKind : Msg → Option ErrKind
  | .itemDataMustBeNonEmptyDict => some .validationError
  | .nameRequired => some .validationError
  | .invalidItemIdMustBeString => some .validationError
  | .invalidItemId => some .validationError
  | .updateDataMustBeNonEmptyDict => some .validationError
  | .cannotChangeId => some .validationError
  | .itemNotFound _ => some .notFoundError
  | .itemNotFoundForUpdate _ => some .notFoundError
  | .itemNotFoundForDeletion _ => some .notFoundError
  | .sqliteIntegrityError _ => some .backingStoreError
  | _ => none

/-- The result mapping returned by every operation.  A key that the Python
dict at the corresponding return site does not contain is `none`. -/
structure Result where
  status : Status
  message : Option Msg
  item_id : Option String
  item : Option PyDict
  items : Option (List PyDict)
  updated_item : Option PyDict
deriving DecidableEq

/-- An error result carrying only a status and a message. -/
def Result.err (m : Msg) : Result :=
  ⟨.error, some m, none, none, none, none⟩

/-- The result is an error classified as `k` by the spec taxonomy. -/
def Result.errKindIs (r : Result) (k : ErrKind) : Bool :=
  r.status == .error
    && (match r.message with
        | some m => m.errKind == some k
        | none => false)

/-- The row factory `_dict_factory`: dedicated columns first, then the
additional-attributes document merged on top, and finally the id restored
from the primary-key column. -/
def dict_factory (it : Item) : PyDict :=
  let d : PyDict :=
    [("id", Value.vStr it.id), ("name", it.name),
      ("price", it.price), ("category", it.category)]
  let d2 := d.updateWith it.additional
  d2.setItem "id" (Value.vStr it.id)

/-- An argument checked by `isinstance(x, dict)`: either some non-dict
value or an actual dict. -/
inductive PyArg where
  | notADict
  | dict (d : PyDict)
deriving DecidableEq

/-- Return value of `create_item`: the result mapping, the table after the
call, and the caller's argument after the call (the function pops keys out
of the mapping it was handed, so the argument is mutated). -/
structure CreateOut where
  result : Result
  store : Store
  arg : PyArg
deriving DecidableEq

/-- `create_item(item_data)`.  `newId` is the id produced by
`str(uuid.uuid4())`; inserting a duplicate primary key raises
`sqlite3.IntegrityError`, which the except-clause turns into an error
result (the pops have already mutated the argument at that point). -/
def create_item (arg : PyArg) (newId : String) (store : Store) : CreateOut :=
  match arg with
  | .notADict => ⟨Result.err .itemDataMustBeNonEmptyDict, store, arg⟩
  | .dict d =>
    if d.isEmpty then ⟨Result.err .itemDataMustBeNonEmptyDict, store, .dict d⟩
    else if !(d.hasKey "name") || !(d.lookupD "name" .vNull).truthy then
      ⟨Result.err .nameRequired, store, .dict d⟩
    else
      let name := d.lookupD "name" .vNull
      let d1 := d.erase "name"
      let price := d1.lookupD "price" .vNull
      let d2 := d1.erase "price"
      let category := d2.lookupD "category" .vNull
      let d3 := d2.erase "category"
      if store.any (fun it => it.id == newId) then
        ⟨Result.err (.sqliteIntegrityError newId), store, .dict d3⟩
      else
        ⟨⟨.success, some (.itemCreated name newId), some newId, none, none, none⟩,
          store ++ [⟨newId, name, price, category, d3⟩], .dict d3⟩

/-- `read_item(item_id)`.  An empty id is falsy and rejected up front; a
fetched row goes through the row factory.  The success result carries no
message key. -/
def read_item (item_id : String) (store : Store) : Result :=
  if item_id == "" then Result.err .invalidItemIdMustBeString
  else
    match store.find? (fun it => it.id == item_id) with
    | some it => ⟨.success, none, none, some (dict_factory it), none, none⟩
    | none => Result.err (.itemNotFound item_id)

/-- ASCII lowercasing of one character, as SQLite LOWER does it. -/
def asciiLowerChar (c : Char) : Char :=
  if 65 <= c.toNat && c.toNat <= 90 then Char.ofNat (c.toNat + 32) else c

/-- ASCII lowercasing of a string, as SQLite LOWER does it. -/
def asciiLower (s : String) : String :=
  ⟨s.data.map asciiLowerChar⟩

/-- SQL `LOWER(category) = LOWER(?)` against a text filter: SQLite LOWER
lowercases ASCII letters; a NULL column never compares equal. -/
def sqlLowerEq (v : Value) (filt : String) : Bool :=
  match v with
  | .vStr s => asciiLower s == asciiLower filt
  | _ => false

/-- SQL `price >= ?` with a numeric bound: NULL yields no match and text
sorts after every number in SQLite's cross-type ordering. -/
def sqlGe (v : Value) (b : Rat) : Bool :=
  match v with
  | .vNull => false
  | .vNum q => decide (b ≤ q)
  | .vStr _ => true

/-- SQL `price <= ?` with a numeric bound: NULL yields no match and text
sorts after every number. -/
def sqlLe (v : Value) (b : Rat) : Bool :=
  match v with
  | .vNull => false
  | .vNum q => decide (q ≤ b)
  | .vStr _ => false

/-- The WHERE clause built by `read_all_items` once the filter parameters
have been collected. -/
def rowFilter (catFilt : Option String) (minP maxP : Option Rat) (it : Item) : Bool :=
  (match catFilt with
   | some c => sqlLowerEq it.category c
   | none => true)
    && (match minP with
        | some b => sqlGe it.price b
        | none => true)
    && (match maxP with
        | some b => sqlLe it.price b
        | none => true)

/-- `read_all_items(category, min_price, max_price)`.  The category filter
is added only when the argument is truthy (so an empty string is skipped);
the price filters are added whenever the argument is not None.  An empty
result list is a success carrying an informational message. -/
def read_all_items (category : Option String) (minP maxP : Option Rat)
    (store : Store) : Result :=
  let catFilt : Option String :=
    match category with
    | some c => if c == "" then none else some c
    | none => none
  let hasParams := catFilt.isSome || minP.isSome || maxP.isSome
  let rows := store.filter (rowFilter catFilt minP maxP)
  if rows.isEmpty then
    ⟨.success, some (if hasParams then .noItemsMatchingCriteria else .noItemsYet),
      none, none, some [], none⟩
  else
    ⟨.success, none, none, none, some (rows.map dict_factory), none⟩

/-- Return value of `update_item`: the result mapping and the table after
the call. -/
structure UpdateOut where
  result : Result
  store : Store
deriving DecidableEq

/-- `update_item(item_id, update_data)`.  Validation happens in source
order: falsy id, non-dict or empty dict, id-change attempt, then the
existence check; dedicated fields are popped into SET clauses and the
leftover keys are merged into the existing additional document.  The
rowcount race-condition branch of the source is unreachable in the
single-threaded model and is omitted. -/
def update_item (item_id : String) (arg : PyArg) (store : Store) : UpdateOut :=
  if item_id == "" then ⟨Result.err .invalidItemId, store⟩
  else
    match arg with
    | .notADict => ⟨Result.err .updateDataMustBeNonEmptyDict, store⟩
    | .dict d0 =>
      if d0.isEmpty then ⟨Result.err .updateDataMustBeNonEmptyDict, store⟩
      else if (match d0.lookup? "id" with
               | some v => v != Value.vStr item_id
               | none => false) then
        ⟨Result.err .cannotChangeId, store⟩
      else
        let d := d0.erase "id"
        match store.find? (fun it => it.id == item_id) with
        | none => ⟨Result.err (.itemNotFoundForUpdate item_id), store⟩
        | some it =>
          let nameChange := d.lookup? "name"
          let d1 := d.erase "name"
          let priceChange := d1.lookup? "price"
          let d2 := d1.erase "price"
          let catChange := d2.lookup? "category"
          let d3 := d2.erase "category"
          if nameChange.isNone && priceChange.isNone && catChange.isNone
              && d3.isEmpty then
            ⟨⟨.info, some .noValidFields, none, none, none, none⟩, store⟩
          else
            let newItem : Item :=
              ⟨it.id, nameChange.getD it.name, priceChange.getD it.price,
                catChange.getD it.category,
                if d3.isEmpty then it.additional
                else it.additional.updateWith d3⟩
            let store2 := store.map (fun j => if j.id == item_id then newItem else j)
            let rr := read_item item_id store2
            if rr.status == .success then
              ⟨⟨.success, some (.itemUpdated item_id), some item_id,
                  none, none, rr.item⟩, store2⟩
            else
              ⟨⟨.warning, some (.updatedButNotRetrieved item_id), some item_id,
                  none, none, none⟩, store2⟩

/-- Return value of `delete_item`: the result mapping and the table after
the call. -/
structure DeleteOut where
  result : Result
  store : Store
deriving DecidableEq

/-- `delete_item(item_id)`: a falsy id is rejected, the name is fetched
for the confirmation message, the row is hard-deleted, and a zero rowcount
reports not-found. -/
def delete_item (item_id : String) (store : Store) : DeleteOut :=
  if item_id == "" then ⟨Result.err .invalidItemId, store⟩
  else
    let nameForMsg : Value :=
      match store.find? (fun it => it.id == item_id) with
      | some it => it.name
      | none => .vStr "Unknown"
    let store2 := store.filter (fun it => it.id != item_id)
    if store.any (fun it => it.id == item_id) then
      ⟨⟨.success, some (.itemDeleted nameForMsg item_id), some item_id,
          none, none, none⟩, store2⟩
    else
      ⟨Result.err (.itemNotFoundForDeletion item_id), store⟩

/-- The filter predicate as the spec states it (refinement side, stated
from the spec's words rather than the source): category is a
case-insensitive exact match, price bounds are inclusive on a numeric
price, and an empty-string category filter is ignored. -/
def specMatches (category : Option String) (minP maxP : Option Rat) (it : Item) : Bool :=
  (match category with
   | some c =>
     if c == "" then true
     else
       match it.category with
       | .vStr s => asciiLower s == asciiLower c
       | _ => false
   | none => true)
    && (match minP with
        | some b =>
          match it.price with
          | .vNum q => decide (b ≤ q)
          | _ => false
        | none => true)
    && (match maxP with
        | some b =>
          match it.price with
          | .vNum q => decide (q ≤ b)
          | _ => false
        | none => true)

/-! ### Value helpers used to state column typing -/

/-- The value has the type of the `name` column (TEXT NOT NULL). -/
def Value.isStr : Value → Bool
  | .vStr _ => true
  | _ => false

/-- The value has the type of the `price` column (REAL, nullable). -/
def Value.isNumOrNull : Value → Bool
  | .vStr _ => false
  | _ => true

/-- The value has the type of the `category` column (TEXT, nullable). -/
def Value.isStrOrNull : Value → Bool
  | .vNum _ => false
  | _ => true
/-- The create-input rejection condition exactly as the code checks it:
not a dict, an empty dict, or a name key that is absent or falsy. -/
def invalidCreateArg : PyArg → Bool
  | .notADict => true
  | .dict d => d.isEmpty || !(d.hasKey "name") || !((d.lookupD "name" Value.vNull).truthy)

/-- The row a valid create inserts: the generated id, the popped name,
price and category (None when absent), and the remaining keys as the
additional document. -/
def createdRow (d : PyDict) (newId : String) : Item :=
  ⟨newId, d.lookupD "name" Value.vNull,
    PyDict.lookupD (d.erase "name") "price" Value.vNull,
    PyDict.lookupD ((d.erase "name").erase "price") "category" Value.vNull,
    PyDict.erase (PyDict.erase (PyDict.erase d "name") "price") "category"⟩

/-! ### Association-list lemmas -/

theorem PyDict.lookup?_nil (k : String) : PyDict.lookup? [] k = none := rfl

theorem PyDict.setItem_nil (k : String) (v : Value) :
    PyDict.setItem [] k v = [(k, v)] := rfl

theorem PyDict.setItem_cons (kv0 : String × Value) (rest : PyDict) (k : String) (v : Value) :
    PyDict.setItem (kv0 :: rest) k v =
      if kv0.1 == k then (kv0.1, v) :: rest else kv0 :: PyDict.setItem rest k v := rfl

theorem PyDict.lookup?_cons (kv : String × Value) (d : PyDict) (k : String) :
    PyDict.lookup? (kv :: d) k = if kv.1 == k then some kv.2 else PyDict.lookup? d k := by
  cases hc : kv.1 == k
  · rw [if_neg (by simp [hc])]
    simp only [PyDict.lookup?]
    rw [@List.find?_cons_of_neg _ (fun kv2 => kv2.1 == k) kv d (by simp [hc])]
  · rw [if_pos rfl]
    simp only [PyDict.lookup?]
    rw [@List.find?_cons_of_pos _ (fun kv2 => kv2.1 == k) kv d hc]
    rfl

theorem PyDict.lookup?_eq_none_iff (d : PyDict) (k : String) :
    d.lookup? k = none ↔ ∀ kv ∈ d, kv.1 ≠ k := by
  simp [PyDict.lookup?, List.find?_eq_none]

theorem PyDict.hasKey_eq_isSome (d : PyDict) (k : String) :
    d.hasKey k = (d.lookup? k).isSome := by
  induction d with
  | nil => rfl
  | cons kv rest ih =>
    rw [PyDict.lookup?_cons]
    have hc : PyDict.hasKey (kv :: rest) k = (kv.1 == k || PyDict.hasKey rest k) := by
      simp [PyDict.hasKey]
    rw [hc, ih]
    cases hck : kv.1 == k <;> simp

theorem PyDict.hasKey_iff_mem_keys (d : PyDict) (k : String) :
    d.hasKey k = true ↔ k ∈ d.map Prod.fst := by
  rw [PyDict.hasKey, List.any_eq_true]
  constructor
  · rintro ⟨kv, hm, he⟩
    exact List.mem_map.mpr ⟨kv, hm, by simpa using he⟩
  · intro hm
    obtain ⟨kv, hm2, he⟩ := List.mem_map.mp hm
    exact ⟨kv, hm2, by simp [he]⟩

theorem PyDict.lookup?_setItem (d : PyDict) (k : String) (v : Value) (k2 : String) :
    (d.setItem k v).lookup? k2 = if k == k2 then some v else d.lookup? k2 := by
  induction d with
  | nil =>
    rw [PyDict.setItem_nil, PyDict.lookup?_cons]
  | cons kv0 rest ih =>
    rw [PyDict.setItem_cons]
    by_cases h0 : kv0.1 = k
    · subst h0
      rw [if_pos (by simp), PyDict.lookup?_cons, PyDict.lookup?_cons]
      by_cases h2 : kv0.1 = k2 <;> simp [h2]
    · rw [if_neg (by simp [h0]), PyDict.lookup?_cons, PyDict.lookup?_cons, ih]
      by_cases h2 : kv0.1 = k2
      · subst h2
        have hne : k ≠ kv0.1 := fun he => h0 he.symm
        simp [hne]
      · simp [h2]

theorem PyDict.erase_nil (k : String) : PyDict.erase [] k = [] := rfl

theorem PyDict.erase_cons (kv0 : String × Value) (rest : PyDict) (k : String) :
    PyDict.erase (kv0 :: rest) k =
      if kv0.1 == k then PyDict.erase rest k else kv0 :: PyDict.erase rest k := by
  simp only [PyDict.erase, List.filter_cons]
  cases hc : kv0.1 == k <;> simp [bne, hc]

theorem PyDict.lookup?_erase (d : PyDict) (k k2 : String) :
    (d.erase k).lookup? k2 = if k == k2 then none else d.lookup? k2 := by
  induction d with
  | nil =>
    rw [PyDict.erase_nil]
    by_cases h : k = k2 <;> simp [h, PyDict.lookup?_nil]
  | cons kv0 rest ih =>
    rw [PyDict.erase_cons]
    by_cases h0 : kv0.1 = k
    · subst h0
      rw [if_pos (by simp), ih, PyDict.lookup?_cons]
      by_cases h2 : kv0.1 = k2 <;> simp [h2]
    · rw [if_neg (by simp [h0]), PyDict.lookup?_cons, PyDict.lookup?_cons, ih]
      by_cases h2 : kv0.1 = k2
      · subst h2
        have hne : k ≠ kv0.1 := fun he => h0 he.symm
        simp [hne]
      · simp [h2]

theorem PyDict.hasKey_erase (d : PyDict) (k k2 : String) :
    (d.erase k).hasKey k2 = if k == k2 then false else d.hasKey k2 := by
  by_cases h : k = k2 <;>
    simp [PyDict.hasKey_eq_isSome, PyDict.lookup?_erase, h]

theorem PyDict.updateWith_nil (d : PyDict) : d.updateWith [] = d := rfl

theorem PyDict.updateWith_cons (d : PyDict) (kv : String × Value) (rest : PyDict) :
    d.updateWith (kv :: rest) = PyDict.updateWith (d.setItem kv.1 kv.2) rest := rfl

theorem PyDict.hasKey_setItem (d : PyDict) (k : String) (v : Value) (k2 : String) :
    (d.setItem k v).hasKey k2 = (d.hasKey k2 || k == k2) := by
  rw [PyDict.hasKey_eq_isSome, PyDict.hasKey_eq_isSome, PyDict.lookup?_setItem]
  by_cases h : k = k2 <;> simp [h]

theorem PyDict.hasKey_updateWith (d other : PyDict) (k : String) :
    (d.updateWith other).hasKey k = (d.hasKey k || other.hasKey k) := by
  induction other generalizing d with
  | nil => simp [PyDict.updateWith_nil, PyDict.hasKey]
  | cons kv rest ih =>
    rw [PyDict.updateWith_cons, ih, PyDict.hasKey_setItem]
    have hc : PyDict.hasKey (kv :: rest) k = (kv.1 == k || PyDict.hasKey rest k) := by
      simp [PyDict.hasKey]
    rw [hc, Bool.or_assoc]

theorem PyDict.WF_nil : PyDict.WF [] := by simp [PyDict.WF]

theorem PyDict.WF_cons_iff (kv : String × Value) (d : PyDict) :
    PyDict.WF (kv :: d) ↔ (∀ kv2 ∈ d, kv2.1 ≠ kv.1) ∧ d.WF := by
  simp only [PyDict.WF, List.map_cons, List.nodup_cons]
  constructor
  · rintro ⟨h1, h2⟩
    exact ⟨fun kv2 hm he => h1 (he ▸ List.mem_map_of_mem _ hm), h2⟩
  · rintro ⟨h1, h2⟩
    refine ⟨fun hm => ?_, h2⟩
    obtain ⟨kv2, hm2, he2⟩ := List.mem_map.mp hm
    exact h1 kv2 hm2 he2

theorem PyDict.WF_erase (d : PyDict) (k : String) (h : d.WF) : (d.erase k).WF := by
  have hs : ((d.erase k).map Prod.fst).Sublist (d.map Prod.fst) :=
    (List.filter_sublist d).map Prod.fst
  exact hs.nodup h

theorem PyDict.WF_setItem (d : PyDict) (k : String) (v : Value) (h : d.WF) :
    (d.setItem k v).WF := by
  induction d with
  | nil =>
    rw [PyDict.setItem_nil]
    simp [PyDict.WF]
  | cons kv0 rest ih =>
    rw [PyDict.WF_cons_iff] at h
    rw [PyDict.setItem_cons]
    by_cases h0 : kv0.1 = k
    · rw [if_pos (by simp [h0]), PyDict.WF_cons_iff]
      exact ⟨h.1, h.2⟩
    · rw [if_neg (by simp [h0]), PyDict.WF_cons_iff]
      refine ⟨fun kv2 hm2 => ?_, ih h.2⟩
      have hk : kv2.1 ∈ (PyDict.setItem rest k v).map Prod.fst :=
        List.mem_map_of_mem _ hm2
      rw [← PyDict.hasKey_iff_mem_keys, PyDict.hasKey_setItem] at hk
      rcases Bool.or_eq_true_iff.mp hk with h1 | h2
      · rw [PyDict.hasKey_iff_mem_keys] at h1
        obtain ⟨kv3, hm3, he3⟩ := List.mem_map.mp h1
        exact he3 ▸ h.1 kv3 hm3
      · have hk2 : k = kv2.1 := by simpa using h2
        intro he
        exact h0 (hk2.trans he).symm

theorem PyDict.WF_updateWith (d other : PyDict) (h : d.WF) : (d.updateWith other).WF := by
  induction other generalizing d with
  | nil => simpa [PyDict.updateWith_nil]
  | cons kv rest ih =>
    rw [PyDict.updateWith_cons]
    exact ih _ (PyDict.WF_setItem d kv.1 kv.2 h)

theorem PyDict.lookup?_updateWith (d other : PyDict) (ho : other.WF) (k : String) :
    (d.updateWith other).lookup? k =
      match other.lookup? k with
      | some v => some v
      | none => d.lookup? k := by
  induction other generalizing d with
  | nil => simp [PyDict.updateWith_nil, PyDict.lookup?_nil]
  | cons kv rest ih =>
    rw [PyDict.WF_cons_iff] at ho
    rw [PyDict.updateWith_cons, ih _ ho.2, PyDict.lookup?_cons]
    by_cases hk : kv.1 = k
    · have hr : PyDict.lookup? rest k = none :=
        (PyDict.lookup?_eq_none_iff rest k).mpr
          (fun kv2 hm he => ho.1 kv2 hm (he.trans hk.symm))
      simp [hk, hr, PyDict.lookup?_setItem]
    · cases hr : PyDict.lookup? rest k <;>
        simp [hk, hr, PyDict.lookup?_setItem]

theorem PyDict.lookup?_of_mem_WF {d : PyDict} {kv : String × Value}
    (h : d.WF) (hm : kv ∈ d) : d.lookup? kv.1 = some kv.2 := by
  induction d with
  | nil => cases hm
  | cons kv0 rest ih =>
    rw [PyDict.WF_cons_iff] at h
    rcases List.mem_cons.mp hm with rfl | hm2
    · simp [PyDict.lookup?_cons]
    · have hne : kv.1 ≠ kv0.1 := h.1 kv hm2
      rw [PyDict.lookup?_cons]
      rw [if_neg (by simp; exact fun he => hne he.symm)]
      exact ih h.2 hm2

theorem PyDict.equiv_of_lookup {a b : PyDict} (ha : a.WF) (hb : b.WF)
    (h : ∀ k, a.lookup? k = b.lookup? k) : a.equiv b = true := by
  rw [PyDict.equiv, Bool.and_eq_true]
  constructor
  · rw [List.all_eq_true]
    intro kv hkv
    have hv := PyDict.lookup?_of_mem_WF ha hkv
    simp [← h kv.1, hv]
  · rw [List.all_eq_true]
    intro kv hkv
    have hv := PyDict.lookup?_of_mem_WF hb hkv
    simp [h kv.1, hv]

/-! ### Store lemmas -/

theorem Store.eq_of_mem_of_id {s : Store} {a b : Item}
    (hnd : (s.map Item.id).Nodup) (ha : a ∈ s) (hb : b ∈ s) (hid : a.id = b.id) :
    a = b := by
  induction s with
  | nil => cases ha
  | cons x rest ih =>
    rw [List.map_cons, List.nodup_cons] at hnd
    rcases List.mem_cons.mp ha with rfl | ha2 <;>
      rcases List.mem_cons.mp hb with rfl | hb2
    · rfl
    · exact absurd (hid ▸ List.mem_map_of_mem Item.id hb2) hnd.1
    · exact absurd (hid ▸ List.mem_map_of_mem Item.id ha2) hnd.1
    · exact ih hnd.2 ha2 hb2

theorem Store.find?_of_mem {s : Store} {it : Item} {item_id : String}
    (hnd : (s.map Item.id).Nodup) (hm : it ∈ s) (hid : it.id = item_id) :
    s.find? (fun j => j.id == item_id) = some it := by
  induction s with
  | nil => cases hm
  | cons x rest ih =>
    rw [List.map_cons, List.nodup_cons] at hnd
    rcases List.mem_cons.mp hm with rfl | hm2
    · exact List.find?_cons_of_pos _ (by simp [hid])
    · have hne : x.id ≠ item_id := by
        intro he
        exact hnd.1 ((he.trans hid.symm) ▸ List.mem_map_of_mem Item.id hm2)
      rw [List.find?_cons_of_neg _ (by simp [hne])]
      exact ih hnd.2 hm2

/-! ### Per-operation result-shape lemmas -/

theorem create_item_message_isSome (arg : PyArg) (newId : String) (store : Store) :
    (create_item arg newId store).result.message.isSome = true := by
  rcases arg with _ | d
  · rfl
  · simp only [create_item]
    split
    · rfl
    · split
      · rfl
      · split <;> rfl

theorem read_item_message_spec (item_id : String) (store : Store) :
    (read_item item_id store).message.isSome =
      ((read_item item_id store).status != Status.success) := by
  rw [read_item]
  split
  · rfl
  · split <;> rfl

theorem read_all_items_message_spec (c : Option String) (mn mx : Option Rat) (s : Store) :
    (read_all_items c mn mx s).status = Status.success ∧
    ((read_all_items c mn mx s).message.isSome ↔
      (read_all_items c mn mx s).items = some []) := by
  rw [read_all_items.eq_def]
  simp only
  split
  · exact ⟨rfl, by simp⟩
  · rename_i hrows
    refine ⟨rfl, ?_⟩
    simp only [Option.isSome_none, Option.some.injEq]
    constructor
    · intro h
      exact absurd h (by simp)
    · intro h
      rw [List.map_eq_nil_iff] at h
      rw [h] at hrows
      exact absurd rfl hrows

theorem update_item_message_isSome (item_id : String) (arg : PyArg) (store : Store) :
    (update_item item_id arg store).result.message.isSome = true := by
  rw [update_item.eq_def]
  split
  · rfl
  · rcases arg with _ | d0
    · rfl
    · simp only
      repeat' split
      all_goals rfl

theorem delete_item_message_isSome (item_id : String) (store : Store) :
    (delete_item item_id store).result.message.isSome = true := by
  rw [delete_item]
  split
  · rfl
  · simp only
    split <;> rfl

/-! ### Claim C2 -/

/-- C2, amended: each of the five store operations always returns a
structured result with a status discriminator among
success/error/info/warning and never raises (the operations are total
functions into `Result`); every error/info/warning result carries a
message, and every success result carries one except `read` success and
`read_all` success with a non-empty item list. -/
theorem c2_result_discipline :
    (∀ arg newId store, (create_item arg newId store).result.message.isSome = true) ∧
    (∀ item_id store, (read_item item_id store).message.isSome =
      ((read_item item_id store).status != Status.success)) ∧
    (∀ c mn mx store, (read_all_items c mn mx store).status = Status.success ∧
      ((read_all_items c mn mx store).message.isSome ↔
        (read_all_items c mn mx store).items = some [])) ∧
    (∀ item_id arg store, (update_item item_id arg store).result.message.isSome = true) ∧
    (∀ item_id store, (delete_item item_id store).result.message.isSome = true) :=
  ⟨create_item_message_isSome, read_item_message_spec, read_all_items_message_spec,
    update_item_message_isSome, delete_item_message_isSome⟩

/-- C2 counterexample: the claim as stated requires every result to carry
a message, but a successful `read` returns only a status and the item. -/
theorem c2_counterexample :
    (read_item "A" [⟨"A", Value.vStr "Pen", Value.vNull, Value.vNull, []⟩]).status
        = Status.success ∧
    (read_item "A" [⟨"A", Value.vStr "Pen", Value.vNull, Value.vNull, []⟩]).message
        = none := by
  exact ⟨rfl, rfl⟩

/-! ### Claim C3 -/

/-- C3, amended: for an existing item id, update with an EMPTY change set
is rejected as a validation error (not an informational no-op) and leaves
the table unchanged, while update with a change set containing only the
item's own unchanged id is the informational no-op: it leaves the table
unchanged and repeating it yields the identical outcome. -/
theorem c3_noop_semantics (store : Store) (it : Item) (item_id : String)
    (hm : it ∈ store) (hid : it.id = item_id) (hne : item_id ≠ "") :
    ((update_item item_id (.dict []) store).result =
        Result.err .updateDataMustBeNonEmptyDict ∧
      (update_item item_id (.dict []) store).store = store) ∧
    ((update_item item_id (.dict [("id", Value.vStr item_id)]) store).result =
        ⟨.info, some .noValidFields, none, none, none, none⟩ ∧
      (update_item item_id (.dict [("id", Value.vStr item_id)]) store).store = store ∧
      update_item item_id (.dict [("id", Value.vStr item_id)])
          ((update_item item_id (.dict [("id", Value.vStr item_id)]) store).store) =
        update_item item_id (.dict [("id", Value.vStr item_id)]) store) := by
  obtain ⟨j, hj⟩ : ∃ j, store.find? (fun x => x.id == item_id) = some j :=
    Option.isSome_iff_exists.mp
      (List.find?_isSome.mpr ⟨it, hm, by simp [hid]⟩)
  have hempty : update_item item_id (.dict []) store =
      ⟨Result.err .updateDataMustBeNonEmptyDict, store⟩ := by
    rw [update_item.eq_def, if_neg (by simp [hne])]
    rfl
  have hl : PyDict.lookup? [("id", Value.vStr item_id)] "id" =
      some (Value.vStr item_id) := by
    simp [PyDict.lookup?_cons]
  have he : PyDict.erase [("id", Value.vStr item_id)] "id" = [] := by
    simp [PyDict.erase_cons, PyDict.erase_nil]
  have hinfo : update_item item_id (.dict [("id", Value.vStr item_id)]) store =
      ⟨⟨.info, some .noValidFields, none, none, none, none⟩, store⟩ := by
    rw [update_item.eq_def, if_neg (by simp [hne])]
    simp only
    rw [if_neg (by simp), if_neg (by rw [hl]; simp), he, hj]
    rfl
  refine ⟨⟨by rw [hempty], by rw [hempty]⟩, by rw [hinfo], by rw [hinfo], ?_⟩
  rw [hinfo]
  exact hinfo

/-- C3 counterexample: on an existing item, update with the empty change
set returns an error status (message: update data must be a non-empty
dictionary), not the informational no-op the claim asserts. -/
theorem c3_counterexample :
    (update_item "A" (.dict [])
        [⟨"A", Value.vStr "Pen", Value.vNull, Value.vNull, []⟩]).result.status =
      Status.error ∧
    (update_item "A" (.dict [])
        [⟨"A", Value.vStr "Pen", Value.vNull, Value.vNull, []⟩]).result.status ≠
      Status.info := by
  exact ⟨rfl, by decide⟩

/-- C3 witness: the amended no-op semantics evaluated on a one-item table. -/
theorem c3_witness :
    (⟨"A", Value.vStr "Pen", Value.vNull, Value.vNull, []⟩ : Item) ∈
      ([⟨"A", Value.vStr "Pen", Value.vNull, Value.vNull, []⟩] : Store) ∧
    ((update_item "A" (.dict [("id", Value.vStr "A")])
        [⟨"A", Value.vStr "Pen", Value.vNull, Value.vNull, []⟩]).result =
      ⟨.info, some .noValidFields, none, none, none, none⟩ ∧
      (update_item "A" (.dict [("id", Value.vStr "A")])
          [⟨"A", Value.vStr "Pen", Value.vNull, Value.vNull, []⟩]).store =
        [⟨"A", Value.vStr "Pen", Value.vNull, Value.vNull, []⟩]) :=
  ⟨by decide,
    ((c3_noop_semantics [⟨"A", Value.vStr "Pen", Value.vNull, Value.vNull, []⟩]
      ⟨"A", Value.vStr "Pen", Value.vNull, Value.vNull, []⟩ "A"
      (by decide) (by decide) (by decide)).2.1),
    ((c3_noop_semantics [⟨"A", Value.vStr "Pen", Value.vNull, Value.vNull, []⟩]
      ⟨"A", Value.vStr "Pen", Value.vNull, Value.vNull, []⟩ "A"
      (by decide) (by decide) (by decide)).2.2.1)⟩

/-! ### Claim C7 -/

/-- C7, amended: the update validation checks run before the existence
check.  For a non-empty id and a non-empty change set that does not
attempt to change the id, updating an absent id fails with NotFoundError
and changes nothing; a change set that does attempt to change the id
always fails with a ValidationError (invalid-id or cannot-change-id)
without modifying anything, even when the id does not exist. -/
theorem c7_update_errors :
    (∀ item_id store d0, item_id ≠ "" → d0.isEmpty = false →
      (match PyDict.lookup? d0 "id" with
       | some v => v != Value.vStr item_id
       | none => false) = false →
      (∀ it ∈ store, it.id ≠ item_id) →
      (update_item item_id (.dict d0) store).result =
          Result.err (.itemNotFoundForUpdate item_id) ∧
        (update_item item_id (.dict d0) store).result.errKindIs .notFoundError = true ∧
        (update_item item_id (.dict d0) store).store = store) ∧
    (∀ item_id store d0 v, PyDict.lookup? d0 "id" = some v →
      v ≠ Value.vStr item_id →
      (update_item item_id (.dict d0) store).result.errKindIs .validationError = true ∧
      (update_item item_id (.dict d0) store).store = store) := by
  constructor
  · intro item_id store d0 hne hd0 hidok habs
    have hfind : store.find? (fun x => x.id == item_id) = none :=
      List.find?_eq_none.mpr (fun x hx => by simp [habs x hx])
    have hout : update_item item_id (.dict d0) store =
        ⟨Result.err (.itemNotFoundForUpdate item_id), store⟩ := by
      rw [update_item.eq_def, if_neg (by simp [hne])]
      simp only
      rw [if_neg (by simp [hd0]), if_neg (by simp [hidok]), hfind]
    exact ⟨by rw [hout], by rw [hout] <;> rfl, by rw [hout]⟩
  · intro item_id store d0 v hl hv
    by_cases hne : item_id = ""
    · have hout : update_item item_id (.dict d0) store =
          ⟨Result.err .invalidItemId, store⟩ := by
        rw [update_item.eq_def, if_pos (by simp [hne])]
      exact ⟨by rw [hout] <;> rfl, by rw [hout]⟩
    · have hd0 : d0.isEmpty = false := by
        cases d0 with
        | nil => simp [PyDict.lookup?_nil] at hl
        | cons kv rest => rfl
      have hout : update_item item_id (.dict d0) store =
          ⟨Result.err .cannotChangeId, store⟩ := by
        rw [update_item.eq_def, if_neg (by simp [hne])]
        simp only
        rw [if_neg (by simp [hd0]), if_pos (by rw [hl]; simp [hv])]
      exact ⟨by rw [hout] <;> rfl, by rw [hout]⟩

/-- C7 counterexample: the claim demands NotFoundError for every update of
an absent id, but an absent id together with an id-changing change set is
rejected as cannot-change-id, a validation error, not NotFoundError. -/
theorem c7_counterexample :
    ("x" ∉ ([] : Store).map Item.id) ∧
    (update_item "x" (.dict [("id", Value.vStr "y")]) []).result.message =
      some Msg.cannotChangeId ∧
    Msg.errKind Msg.cannotChangeId = some ErrKind.validationError ∧
    (update_item "x" (.dict [("id", Value.vStr "y")]) []).result.errKindIs
      ErrKind.notFoundError = false := by
  exact ⟨by simp, by decide, rfl, by decide⟩

/-- C7 witness: both amended halves evaluated at concrete inputs. -/
theorem c7_witness :
    ((update_item "x" (.dict [("name", Value.vStr "Ink")]) []).result =
        Result.err (.itemNotFoundForUpdate "x") ∧
      (update_item "x" (.dict [("name", Value.vStr "Ink")]) []).result.errKindIs
        .notFoundError = true ∧
      (update_item "x" (.dict [("name", Value.vStr "Ink")]) []).store = []) ∧
    ((update_item "x" (.dict [("id", Value.vStr "y")]) []).result.errKindIs
        .validationError = true ∧
      (update_item "x" (.dict [("id", Value.vStr "y")]) []).store = []) :=
  ⟨c7_update_errors.1 "x" [] [("name", Value.vStr "Ink")]
      (by decide) (by decide) (by decide) (by intro it h; cases h),
    c7_update_errors.2 "x" [] [("id", Value.vStr "y")] (Value.vStr "y")
      (by decide) (by decide)⟩

/-! ### Claim C9 -/

/-- C9, amended: deleting an existing id hard-deletes the row — the result
is a success carrying the deleted item's name, every remaining row has a
different id, and a subsequent read of that id reports NotFoundError;
deleting an absent NON-EMPTY id reports NotFoundError and changes nothing;
the empty id (a falsy string) is instead rejected as invalid input before
the table is consulted. -/
theorem c9_delete_semantics :
    (∀ store it item_id, Store.WF store → it ∈ store → it.id = item_id →
      (delete_item item_id store).result.status = Status.success ∧
      (delete_item item_id store).result.message =
        some (.itemDeleted it.name item_id) ∧
      (delete_item item_id store).store = store.filter (fun j => j.id != item_id) ∧
      (∀ j ∈ (delete_item item_id store).store, j.id ≠ item_id) ∧
      (read_item item_id (delete_item item_id store).store).errKindIs
        .notFoundError = true ∧
      (read_item item_id (delete_item item_id store).store).message =
        some (.itemNotFound item_id)) ∧
    (∀ store item_id, item_id ≠ "" → (∀ it ∈ store, it.id ≠ item_id) →
      (delete_item item_id store).result.errKindIs .notFoundError = true ∧
      (delete_item item_id store).result.message =
        some (.itemNotFoundForDeletion item_id) ∧
      (delete_item item_id store).store = store) := by
  constructor
  · intro store it item_id hwf hm hid
    have hne : item_id ≠ "" := hid ▸ hwf.2 it hm
    have hfind := Store.find?_of_mem hwf.1 hm hid
    have hany : store.any (fun x => x.id == item_id) = true :=
      List.any_eq_true.mpr ⟨it, hm, by simp [hid]⟩
    have hout : delete_item item_id store =
        ⟨⟨.success, some (.itemDeleted it.name item_id), some item_id,
            none, none, none⟩,
          store.filter (fun j => j.id != item_id)⟩ := by
      rw [delete_item.eq_def, if_neg (by simp [hne])]
      simp only
      rw [hfind, if_pos hany]
    have hmem2 : ∀ j ∈ store.filter (fun j : Item => j.id != item_id), j.id ≠ item_id := by
      intro j hj
      have := (List.mem_filter.mp hj).2
      simpa using this
    have hread : read_item item_id (store.filter (fun j : Item => j.id != item_id)) =
        Result.err (.itemNotFound item_id) := by
      rw [read_item, if_neg (by simp [hne])]
      rw [List.find?_eq_none.mpr (fun x hx => by simp [hmem2 x hx])]
    refine ⟨by rw [hout], by rw [hout], by rw [hout], ?_, ?_, ?_⟩
    · rw [hout]
      exact hmem2
    · rw [hout, hread]
      rfl
    · rw [hout, hread]
      rfl
  · intro store item_id hne habs
    have hany : store.any (fun x => x.id == item_id) = false := by
      rw [List.any_eq_false]
      intro x hx
      simp [habs x hx]
    have hout : delete_item item_id store =
        ⟨Result.err (.itemNotFoundForDeletion item_id), store⟩ := by
      rw [delete_item.eq_def, if_neg (by simp [hne])]
      simp only
      rw [if_neg (by simp [hany])]
    exact ⟨by rw [hout] <;> rfl, by rw [hout] <;> rfl, by rw [hout]⟩

/-- C9 counterexample: the empty id is absent from the empty table, yet
delete reports invalid input (a validation error), not NotFoundError. -/
theorem c9_counterexample :
    ("" ∉ ([] : Store).map Item.id) ∧
    (delete_item "" []).result.message = some Msg.invalidItemId ∧
    Msg.errKind Msg.invalidItemId = some ErrKind.validationError ∧
    (delete_item "" []).result.errKindIs ErrKind.notFoundError = false := by
  exact ⟨by simp, rfl, rfl, by decide⟩

/-- C9 witness: delete of an existing row followed by a read, and delete
of an absent non-empty id, evaluated on a one-item table. -/
theorem c9_witness :
    ((delete_item "A" [⟨"A", Value.vStr "Pen", Value.vNull, Value.vNull, []⟩]).result.status =
        Status.success ∧
      (delete_item "A" [⟨"A", Value.vStr "Pen", Value.vNull, Value.vNull, []⟩]).store = [] ∧
      (read_item "A"
        (delete_item "A" [⟨"A", Value.vStr "Pen", Value.vNull, Value.vNull, []⟩]).store).errKindIs
          .notFoundError = true) ∧
    ((delete_item "B" [⟨"A", Value.vStr "Pen", Value.vNull, Value.vNull, []⟩]).result.errKindIs
        .notFoundError = true ∧
      (delete_item "B" [⟨"A", Value.vStr "Pen", Value.vNull, Value.vNull, []⟩]).store =
        [⟨"A", Value.vStr "Pen", Value.vNull, Value.vNull, []⟩]) := by
  have h1 := (c9_delete_semantics.1 [⟨"A", Value.vStr "Pen", Value.vNull, Value.vNull, []⟩]
    ⟨"A", Value.vStr "Pen", Value.vNull, Value.vNull, []⟩ "A"
    (by constructor <;> decide) (by decide) (by decide))
  have h2 := (c9_delete_semantics.2 [⟨"A", Value.vStr "Pen", Value.vNull, Value.vNull, []⟩]
    "B" (by decide) (by decide))
  exact ⟨⟨h1.1, by rw [h1.2.2.1]; rfl, h1.2.2.2.2.1⟩, ⟨h2.1, h2.2.2⟩⟩

/-! ### Claim C10 -/

/-- C10: create pops the dedicated fields out of the very mapping the
caller passed in — after a create that passes validation, the keys name,
price and category are gone from the caller's mapping, every other key is
untouched, and this happens whether or not the insert itself succeeds. -/
theorem c10_argument_mutation (d : PyDict) (newId : String) (store : Store)
    (hK : d.hasKey "name" = true)
    (hT : (d.lookupD "name" Value.vNull).truthy = true)
    (hne : d.isEmpty = false) :
    (create_item (.dict d) newId store).arg =
      .dict (PyDict.erase (PyDict.erase (PyDict.erase d "name") "price") "category") ∧
    ∀ d2 : PyDict, (create_item (.dict d) newId store).arg = .dict d2 →
      d2.hasKey "name" = false ∧ d2.hasKey "price" = false ∧
      d2.hasKey "category" = false ∧
      ∀ k, k ≠ "name" → k ≠ "price" → k ≠ "category" →
        d2.lookup? k = d.lookup? k := by
  have harg : (create_item (.dict d) newId store).arg =
      .dict (PyDict.erase (PyDict.erase (PyDict.erase d "name") "price") "category") := by
    rw [create_item.eq_def]
    simp only
    rw [if_neg (by simp [hne]), if_neg (by simp [hK, hT])]
    split <;> rfl
  refine ⟨harg, ?_⟩
  intro d2 h2
  rw [harg] at h2
  injection h2 with h3
  subst h3
  refine ⟨?_, ?_, ?_, ?_⟩
  · simp [PyDict.hasKey_erase]
  · simp [PyDict.hasKey_erase]
  · simp [PyDict.hasKey_erase]
  · intro k h1 h2 h3
    simp [PyDict.lookup?_erase, Ne.symm h1, Ne.symm h2, Ne.symm h3]

/-- C10 witness: the pops observed on the example mapping of the module
docstring. -/
theorem c10_witness :
    PyDict.hasKey [("name", Value.vStr "Laptop"), ("price", Value.vNum 1200),
        ("category", Value.vStr "Electronics"), ("stock", Value.vNum 50)]
      "name" = true ∧
    (create_item (.dict [("name", Value.vStr "Laptop"), ("price", Value.vNum 1200),
        ("category", Value.vStr "Electronics"), ("stock", Value.vNum 50)]) "X" []).arg =
      .dict [("stock", Value.vNum 50)] :=
  ⟨by decide,
    by
      have h := (c10_argument_mutation
        [("name", Value.vStr "Laptop"), ("price", Value.vNum 1200),
          ("category", Value.vStr "Electronics"), ("stock", Value.vNum 50)]
        "X" [] (by decide) (by decide) (by decide)).1
      rw [h]
      decide⟩

/-! ### More association-list helpers -/

theorem PyDict.lookup?_erase_self (d : PyDict) (k : String) :
    (d.erase k).lookup? k = none := by
  rw [PyDict.lookup?_erase, if_pos (by simp)]

theorem PyDict.lookup?_erase_of_ne (d : PyDict) (k k2 : String) (h : k ≠ k2) :
    (d.erase k).lookup? k2 = d.lookup? k2 := by
  rw [PyDict.lookup?_erase, if_neg (by simp [h])]

theorem PyDict.lookup?_eq_none_of_hasKey_eq_false {d : PyDict} {k : String}
    (h : d.hasKey k = false) : d.lookup? k = none := by
  rw [PyDict.hasKey_eq_isSome] at h
  exact Option.not_isSome_iff_eq_none.mp (by simp [h])

theorem PyDict.lookup?_eq_some_lookupD {d : PyDict} {k : String}
    (h : d.hasKey k = true) (v0 : Value) :
    d.lookup? k = some (d.lookupD k v0) := by
  rw [PyDict.hasKey_eq_isSome] at h
  obtain ⟨v, hv⟩ := Option.isSome_iff_exists.mp h
  rw [PyDict.lookupD, hv]
  rfl

theorem PyDict.isEmptyFalse_of_hasKey {d : PyDict} {k : String}
    (h : d.hasKey k = true) : d.isEmpty = false := by
  cases d with
  | nil => simp [PyDict.hasKey] at h
  | cons kv rest => rfl

/-! ### Claim C8 -/

/-- C8: with a freshly generated id, create fails with a ValidationError
and persists nothing exactly when the input is not a mapping, is an empty
mapping, or lacks a truthy name; otherwise it persists exactly one new
row carrying the new id and returns that id with a success status. -/
theorem c8_create_validation (arg : PyArg) (newId : String) (store : Store)
    (hfresh : ∀ it ∈ store, it.id ≠ newId) :
    (((create_item arg newId store).result.errKindIs .validationError = true ∧
        (create_item arg newId store).store = store) ↔ invalidCreateArg arg = true) ∧
    (invalidCreateArg arg = false →
      (create_item arg newId store).result.status = Status.success ∧
      (create_item arg newId store).result.item_id = some newId ∧
      ∃ row : Item, (create_item arg newId store).store = store ++ [row] ∧
        row.id = newId) := by
  have hany : store.any (fun x => x.id == newId) = false := by
    rw [List.any_eq_false]
    intro x hx
    simp [hfresh x hx]
  rcases arg with _ | d
  · refine ⟨⟨fun _ => rfl, fun _ => ⟨rfl, rfl⟩⟩, fun h => ?_⟩
    cases h
  · by_cases h1 : d.isEmpty = true
    · have hout : create_item (.dict d) newId store =
          ⟨Result.err .itemDataMustBeNonEmptyDict, store, .dict d⟩ := by
        rw [create_item.eq_def]
        simp only
        rw [if_pos h1]
      have hinv : invalidCreateArg (.dict d) = true := by
        simp [invalidCreateArg, h1]
      refine ⟨⟨fun _ => hinv, fun _ => ⟨by rw [hout] <;> rfl, by rw [hout]⟩⟩, fun h => ?_⟩
      rw [hinv] at h
      cases h
    · by_cases h2 : (!(d.hasKey "name") || !((d.lookupD "name" Value.vNull).truthy)) = true
      · have hout : create_item (.dict d) newId store =
            ⟨Result.err .nameRequired, store, .dict d⟩ := by
          rw [create_item.eq_def]
          simp only
          rw [if_neg h1, if_pos h2]
        have hinv : invalidCreateArg (.dict d) = true := by
          rcases Bool.or_eq_true_iff.mp h2 with h | h <;>
            simp [invalidCreateArg, h]
        refine ⟨⟨fun _ => hinv, fun _ => ⟨by rw [hout] <;> rfl, by rw [hout]⟩⟩, fun h => ?_⟩
        rw [hinv] at h
        cases h
      · have hout : create_item (.dict d) newId store =
            ⟨⟨.success, some (.itemCreated (d.lookupD "name" Value.vNull) newId),
                some newId, none, none, none⟩,
              store ++ [createdRow d newId],
              .dict (PyDict.erase (PyDict.erase (PyDict.erase d "name") "price") "category")⟩ := by
          rw [create_item.eq_def]
          simp only
          rw [if_neg h1, if_neg h2, if_neg (by simp [hany])]
          rfl
        have hfalse : (create_item (.dict d) newId store).result.errKindIs
            .validationError = false := by
          rw [hout]
          rfl
        have hinv : invalidCreateArg (.dict d) = false := by
          have h1f : d.isEmpty = false := Bool.eq_false_iff.mpr h1
          have h2f : (!(d.hasKey "name") || !((d.lookupD "name" Value.vNull).truthy)) = false :=
            Bool.eq_false_iff.mpr h2
          simp only [invalidCreateArg, Bool.or_assoc, h2f, h1f, Bool.or_false]
        refine ⟨⟨fun hc => ?_, fun hc => ?_⟩, fun _ => ?_⟩
        · cases hc.1.symm.trans hfalse
        · rw [hinv] at hc
          cases hc
        · exact ⟨by rw [hout], by rw [hout],
            ⟨createdRow d newId, by rw [hout], rfl⟩⟩

/-- C8 witness: a valid one-key create appends a row with the fresh id,
and the empty mapping is rejected as a validation error without
persisting anything. -/
theorem c8_witness :
    ((create_item (.dict [("name", Value.vStr "Pen")]) "X" []).result.status =
        Status.success ∧
      (create_item (.dict [("name", Value.vStr "Pen")]) "X" []).result.item_id =
        some "X") ∧
    ((create_item (.dict []) "X" []).result.errKindIs .validationError = true ∧
      (create_item (.dict []) "X" []).store = []) := by
  have h1 := c8_create_validation (.dict [("name", Value.vStr "Pen")]) "X" []
    (by intro it h; cases h)
  have h2 := c8_create_validation (.dict []) "X" [] (by intro it h; cases h)
  exact ⟨⟨(h1.2 (by decide)).1, (h1.2 (by decide)).2.1⟩, h2.1.mpr (by decide)⟩

/-! ### Store-update helpers -/

theorem Store.map_id_update (store : Store) (item_id : String) (newItem : Item)
    (hid : newItem.id = item_id) :
    (store.map (fun j => if j.id == item_id then newItem else j)).map Item.id =
      store.map Item.id := by
  rw [List.map_map]
  apply List.map_congr_left
  intro j hj
  by_cases h : j.id = item_id
  · simp [Function.comp, h, hid]
  · simp [Function.comp, h]

theorem Store.map_update_self (store : Store) (item_id : String) (item : Item)
    (hwf : (store.map Item.id).Nodup) (hm : item ∈ store) (hid : item.id = item_id) :
    store.map (fun j => if j.id == item_id then item else j) = store := by
  conv_rhs => rw [← List.map_id store]
  apply List.map_congr_left
  intro j hj
  by_cases h : j.id = item_id
  · have hji : j = item := Store.eq_of_mem_of_id hwf hj hm (h.trans hid.symm)
    simp [h, hji]
  · simp [h]

/-! ### Claim C4 -/

/-- C4, amended: ids are immutable under update (the id column of every
row is unchanged by any update call); update never introduces the key id
into any additional-attributes document; and read always takes the
returned id from the primary-key column.  Create, however, does copy a
caller-supplied id key into the stored additional document (which read
then masks with the primary-key id). -/
theorem c4_id_invariants :
    (∀ item_id arg store,
      (update_item item_id arg store).store.map Item.id = store.map Item.id) ∧
    (∀ item_id arg store, (∀ it ∈ store, it.additional.hasKey "id" = false) →
      ∀ it2 ∈ (update_item item_id arg store).store,
        it2.additional.hasKey "id" = false) ∧
    (∀ item_id store rd, (read_item item_id store).item = some rd →
      PyDict.lookup? rd "id" = some (Value.vStr item_id)) := by
  refine ⟨?_, ?_, ?_⟩
  · intro item_id arg store
    rw [update_item.eq_def]
    split
    · rfl
    · rcases arg with _ | d0
      · rfl
      · simp only
        split
        · rfl
        · split
          · rfl
          · split
            · rfl
            · rename_i it hfind
              have hit : it.id = item_id := by
                simpa using List.find?_some hfind
              split
              · rfl
              · rw [apply_ite UpdateOut.store]
                simp only
                rw [ite_self]
                exact Store.map_id_update store item_id _ hit
  · intro item_id arg store hstore
    rw [update_item.eq_def]
    split
    · exact fun it2 hm2 => hstore it2 hm2
    · rcases arg with _ | d0
      · exact fun it2 hm2 => hstore it2 hm2
      · simp only
        split
        · exact fun it2 hm2 => hstore it2 hm2
        · split
          · exact fun it2 hm2 => hstore it2 hm2
          · split
            · exact fun it2 hm2 => hstore it2 hm2
            · rename_i it hfind
              have hitmem : it ∈ store := List.mem_of_find?_eq_some hfind
              have hd3 : PyDict.hasKey
                  ((((d0.erase "id").erase "name").erase "price").erase "category") "id" =
                    false := by
                simp [PyDict.hasKey_erase]
              have hnew : (if List.isEmpty
                      ((((d0.erase "id").erase "name").erase "price").erase "category") = true
                    then it.additional
                    else it.additional.updateWith
                      ((((d0.erase "id").erase "name").erase "price").erase "category")).hasKey
                  "id" = false := by
                split
                · exact hstore it hitmem
                · rw [PyDict.hasKey_updateWith, hstore it hitmem, hd3]
                  rfl
              have hmap : ∀ it2 ∈ store.map (fun j =>
                  if j.id == item_id then
                    (⟨it.id, (PyDict.lookup? (d0.erase "id") "name").getD it.name,
                      (PyDict.lookup? ((d0.erase "id").erase "name") "price").getD it.price,
                      (PyDict.lookup?
                        (((d0.erase "id").erase "name").erase "price") "category").getD it.category,
                      if List.isEmpty
                          ((((d0.erase "id").erase "name").erase "price").erase "category") = true
                      then it.additional
                      else it.additional.updateWith
                        ((((d0.erase "id").erase "name").erase "price").erase "category")⟩ : Item)
                  else j),
                  it2.additional.hasKey "id" = false := by
                intro it2 hm2
                obtain ⟨j, hj, hfj⟩ := List.mem_map.mp hm2
                by_cases h : j.id = item_id
                · rw [if_pos (by simp [h])] at hfj
                  rw [← hfj]
                  exact hnew
                · rw [if_neg (by simp [h])] at hfj
                  rw [← hfj]
                  exact hstore j hj
              split
              · exact fun it2 hm2 => hstore it2 hm2
              · rw [apply_ite UpdateOut.store]
                simp only
                rw [ite_self]
                exact hmap
  · intro item_id store rd
    rw [read_item]
    split
    · intro h
      exact absurd h (by simp [Result.err])
    · split
      · rename_i it hfind
        intro h
        have hrd : rd = dict_factory it := by
          simpa using h.symm
        have hit : it.id = item_id := by
          simpa using List.find?_some hfind
        rw [hrd]
        simp only [dict_factory]
        rw [PyDict.lookup?_setItem, if_pos (by simp), hit]
      · intro h
        exact absurd h (by simp [Result.err])

/-- C4 counterexample: create copies a caller-supplied id key into the
stored additional-attributes document, so the key id IS present inside
the document, contradicting the claim. -/
theorem c4_counterexample :
    (create_item (.dict [("name", Value.vStr "Pen"), ("id", Value.vStr "zzz")]) "X" []).store =
      [⟨"X", Value.vStr "Pen", Value.vNull, Value.vNull, [("id", Value.vStr "zzz")]⟩] ∧
    PyDict.hasKey [("id", Value.vStr "zzz")] "id" = true := by
  exact ⟨by decide, by decide⟩

/-- C4 witness: the update and read parts of the amended invariant
evaluated on a one-item table with a populated additional document. -/
theorem c4_witness :
    (∀ it2 ∈ (update_item "A" (.dict [("color", Value.vStr "red")])
        [⟨"A", Value.vStr "Pen", Value.vNull, Value.vNull, [("size", Value.vNum 2)]⟩]).store,
      it2.additional.hasKey "id" = false) ∧
    PyDict.lookup?
      (dict_factory ⟨"A", Value.vStr "Pen", Value.vNull, Value.vNull, [("size", Value.vNum 2)]⟩)
      "id" = some (Value.vStr "A") :=
  ⟨c4_id_invariants.2.1 "A" (.dict [("color", Value.vStr "red")])
      [⟨"A", Value.vStr "Pen", Value.vNull, Value.vNull, [("size", Value.vNum 2)]⟩]
      (by decide),
    c4_id_invariants.2.2 "A"
      [⟨"A", Value.vStr "Pen", Value.vNull, Value.vNull, [("size", Value.vNum 2)]⟩]
      (dict_factory ⟨"A", Value.vStr "Pen", Value.vNull, Value.vNull, [("size", Value.vNum 2)]⟩)
      (by decide)⟩

/-! ### Claim C5 -/

theorem PyDict.lookup?_erase4_of_ne (d0 : PyDict) (k : String)
    (h1 : k ≠ "id") (h2 : k ≠ "name") (h3 : k ≠ "price") (h4 : k ≠ "category") :
    PyDict.lookup? ((((d0.erase "id").erase "name").erase "price").erase "category") k =
      PyDict.lookup? d0 k := by
  rw [PyDict.lookup?_erase_of_ne _ _ _ (Ne.symm h4),
    PyDict.lookup?_erase_of_ne _ _ _ (Ne.symm h3),
    PyDict.lookup?_erase_of_ne _ _ _ (Ne.symm h2),
    PyDict.lookup?_erase_of_ne _ _ _ (Ne.symm h1)]

theorem PyDict.lookup?_erase4_none (d0 : PyDict) (k : String)
    (h : PyDict.lookup? d0 k = none) :
    PyDict.lookup? ((((d0.erase "id").erase "name").erase "price").erase "category") k =
      none := by
  by_cases h4 : k = "category"
  · subst h4
    exact PyDict.lookup?_erase_self _ _
  · rw [PyDict.lookup?_erase_of_ne _ _ _ (Ne.symm h4)]
    by_cases h3 : k = "price"
    · subst h3
      exact PyDict.lookup?_erase_self _ _
    · rw [PyDict.lookup?_erase_of_ne _ _ _ (Ne.symm h3)]
      by_cases h2 : k = "name"
      · subst h2
        exact PyDict.lookup?_erase_self _ _
      · rw [PyDict.lookup?_erase_of_ne _ _ _ (Ne.symm h2)]
        by_cases h1 : k = "id"
        · subst h1
          exact PyDict.lookup?_erase_self _ _
        · rw [PyDict.lookup?_erase_of_ne _ _ _ (Ne.symm h1)]
          exact h

/-- The table after an update that has passed the id validations on a
well-formed store containing the target row: every row with the target id
is replaced by the row rebuilt from the popped dedicated fields and the
merged additional document; all other rows are untouched. -/
theorem update_item_store_accepted (item_id : String) (d0 : PyDict) (store : Store)
    (item : Item) (hne : item_id ≠ "") (hne0 : d0.isEmpty = false)
    (hidok : (match PyDict.lookup? d0 "id" with
              | some v => v != Value.vStr item_id
              | none => false) = false)
    (hnd : (store.map Item.id).Nodup) (hm : item ∈ store) (hid : item.id = item_id) :
    (update_item item_id (.dict d0) store).store =
      store.map (fun j => if j.id == item_id then
        (⟨item.id,
          (PyDict.lookup? (d0.erase "id") "name").getD item.name,
          (PyDict.lookup? ((d0.erase "id").erase "name") "price").getD item.price,
          (PyDict.lookup?
            (((d0.erase "id").erase "name").erase "price") "category").getD item.category,
          if List.isEmpty ((((d0.erase "id").erase "name").erase "price").erase "category") = true
          then item.additional
          else item.additional.updateWith
            ((((d0.erase "id").erase "name").erase "price").erase "category")⟩ : Item)
        else j) := by
  have hfind := Store.find?_of_mem hnd hm hid
  rw [update_item.eq_def, if_neg (by simp [hne])]
  simp only
  rw [if_neg (by simp [hne0]), if_neg (by simp [hidok]), hfind]
  split
  · rename_i hcond
    cases hcond
  · rename_i it2 heq
    injection heq with heq2
    subst heq2
    split
    · rename_i hcond
      rw [Bool.and_eq_true, Bool.and_eq_true, Bool.and_eq_true] at hcond
      obtain ⟨⟨⟨hn, hp⟩, hc⟩, hd3⟩ := hcond
      rw [Option.isNone_iff_eq_none] at hn hp hc
      rw [hn, hp, hc]
      simp only [Option.getD_none]
      rw [if_pos hd3]
      exact (Store.map_update_self store item_id item hnd hm hid).symm
    · rw [apply_ite UpdateOut.store]
      simp only
      rw [ite_self]

/-- C5: for an existing item of a well-formed table and any change set
accepted past the id validations, additional attributes not mentioned in
the change set keep their stored value, and every change-set key other
than id and the dedicated fields ends up in the document with its new
value (added or overwritten). -/
theorem c5_update_merge (store : Store) (item : Item) (item_id : String) (d0 : PyDict)
    (hwf : Store.WF store) (hd : PyDict.WF d0)
    (hm : item ∈ store) (hid : item.id = item_id)
    (hne0 : d0.isEmpty = false)
    (hidok : (match PyDict.lookup? d0 "id" with
              | some v => v != Value.vStr item_id
              | none => false) = false) :
    ∀ it2 ∈ (update_item item_id (.dict d0) store).store, it2.id = item_id →
      (∀ k, d0.hasKey k = false →
        PyDict.lookup? it2.additional k = PyDict.lookup? item.additional k) ∧
      (∀ k v, k ≠ "id" → k ≠ "name" → k ≠ "price" → k ≠ "category" →
        PyDict.lookup? d0 k = some v →
        PyDict.lookup? it2.additional k = some v) := by
  have hne : item_id ≠ "" := hid ▸ hwf.2 item hm
  have hstore := update_item_store_accepted item_id d0 store item hne hne0 hidok hwf.1 hm hid
  have hd3wf : PyDict.WF ((((d0.erase "id").erase "name").erase "price").erase "category") :=
    PyDict.WF_erase _ _ (PyDict.WF_erase _ _ (PyDict.WF_erase _ _ (PyDict.WF_erase _ _ hd)))
  intro it2 hm2 hid2
  rw [hstore] at hm2
  obtain ⟨j, hj, hfj⟩ := List.mem_map.mp hm2
  by_cases hjid : j.id = item_id
  · rw [if_pos (by simp [hjid])] at hfj
    subst hfj
    constructor
    · intro k hk
      have h0 : PyDict.lookup? d0 k = none :=
        PyDict.lookup?_eq_none_of_hasKey_eq_false hk
      have h3 := PyDict.lookup?_erase4_none d0 k h0
      simp only
      split
      · rfl
      · rw [PyDict.lookup?_updateWith _ _ hd3wf, h3]
    · intro k v h1 h2 h3 h4 hl
      have hsome : PyDict.lookup?
          ((((d0.erase "id").erase "name").erase "price").erase "category") k = some v := by
        rw [PyDict.lookup?_erase4_of_ne d0 k h1 h2 h3 h4]
        exact hl
      simp only
      split
      · rename_i hd3e
        rw [List.isEmpty_iff] at hd3e
        rw [hd3e, PyDict.lookup?_nil] at hsome
        cases hsome
      · rw [PyDict.lookup?_updateWith _ _ hd3wf, hsome]
  · rw [if_neg (by simp [hjid])] at hfj
    subst hfj
    exact absurd hid2 hjid

/-- C5 witness: the merge semantics on a one-item table: the name change
goes to its column, color is overwritten inside the document, size is
preserved. -/
theorem c5_witness :
    (List.map Prod.fst
        [("name", Value.vStr "Quill"), ("color", Value.vStr "red")]).Nodup ∧
    (∀ it2 ∈ (update_item "A"
        (.dict [("name", Value.vStr "Quill"), ("color", Value.vStr "red")])
        [⟨"A", Value.vStr "Pen", Value.vNum 3, Value.vNull,
          [("size", Value.vNum 2), ("color", Value.vStr "blue")]⟩]).store,
      it2.id = "A" →
      (∀ k, PyDict.hasKey
          [("name", Value.vStr "Quill"), ("color", Value.vStr "red")] k = false →
        PyDict.lookup? it2.additional k =
          PyDict.lookup? [("size", Value.vNum 2), ("color", Value.vStr "blue")] k) ∧
      (∀ k v, k ≠ "id" → k ≠ "name" → k ≠ "price" → k ≠ "category" →
        PyDict.lookup?
          [("name", Value.vStr "Quill"), ("color", Value.vStr "red")] k = some v →
        PyDict.lookup? it2.additional k = some v)) :=
  ⟨by decide,
    c5_update_merge
      [⟨"A", Value.vStr "Pen", Value.vNum 3, Value.vNull,
        [("size", Value.vNum 2), ("color", Value.vStr "blue")]⟩]
      ⟨"A", Value.vStr "Pen", Value.vNum 3, Value.vNull,
        [("size", Value.vNum 2), ("color", Value.vStr "blue")]⟩
      "A" [("name", Value.vStr "Quill"), ("color", Value.vStr "red")]
      ⟨by decide, by decide⟩ (by decide) (by decide) (by decide) (by decide) (by decide)⟩

/-! ### Claim C6 -/

theorem rowFilter_eq_specMatches (category : Option String) (minP maxP : Option Rat)
    (it : Item) (hp : it.price.isNumOrNull = true) :
    rowFilter (match category with
      | some c => if c == "" then none else some c
      | none => none) minP maxP it = specMatches category minP maxP it := by
  have e2 : ∀ b : Rat, sqlGe it.price b =
      (match it.price with
       | Value.vNum q => decide (b ≤ q)
       | _ => false) := by
    intro b
    cases hpv : it.price
    · rfl
    · rfl
    · rw [hpv] at hp
      simp [Value.isNumOrNull] at hp
  have e3 : ∀ b : Rat, sqlLe it.price b =
      (match it.price with
       | Value.vNum q => decide (q ≤ b)
       | _ => false) := by
    intro b
    cases hpv : it.price
    · rfl
    · rfl
    · rw [hpv] at hp
      simp [Value.isNumOrNull] at hp
  rcases category with _ | c
  · rcases minP with _ | b <;> rcases maxP with _ | b2 <;>
      simp [rowFilter, specMatches, e2, e3]
  · by_cases hc : c = ""
    · subst hc
      rcases minP with _ | b <;> rcases maxP with _ | b2 <;>
        simp [rowFilter, specMatches, e2, e3]
    · cases hcat : it.category <;>
        rcases minP with _ | b <;> rcases maxP with _ | b2 <;>
          simp [rowFilter, specMatches, e2, e3, hc, sqlLowerEq, hcat]

/-- C6, amended: read_all always succeeds and returns exactly the rows
passing the spec-side predicate (category by case-insensitive exact
equality, price bounds inclusive), provided stored prices have the
numeric column type; a supplied EMPTY-STRING category filter is ignored
(treated as absent); an empty result set is a success carrying an empty
list and an informational message, not an error. -/
theorem c6_read_all_filters (category : Option String) (minP maxP : Option Rat)
    (store : Store) (hty : ∀ it ∈ store, it.price.isNumOrNull = true) :
    (read_all_items category minP maxP store).status = Status.success ∧
    (read_all_items category minP maxP store).items =
      some ((store.filter (specMatches category minP maxP)).map dict_factory) ∧
    (store.filter (specMatches category minP maxP) = [] →
      (read_all_items category minP maxP store).items = some [] ∧
      (read_all_items category minP maxP store).message.isSome = true) := by
  have hfe : store.filter (rowFilter (match category with
      | some c => if c == "" then none else some c
      | none => none) minP maxP) = store.filter (specMatches category minP maxP) :=
    List.filter_congr
      (fun it hm => rowFilter_eq_specMatches category minP maxP it (hty it hm))
  rw [read_all_items.eq_def]
  simp only
  rw [hfe]
  split
  · rename_i hrows
    rw [List.isEmpty_iff] at hrows
    refine ⟨rfl, ?_, fun _ => ⟨rfl, rfl⟩⟩
    rw [hrows]
    rfl
  · rename_i hrows
    refine ⟨rfl, rfl, fun hemp => ?_⟩
    exact absurd (by rw [hemp]; rfl :
      List.isEmpty (store.filter (specMatches category minP maxP)) = true) hrows

/-- C6 counterexample: an explicitly supplied empty-string category filter
is silently dropped (the argument is falsy), so an item whose category
does not match the empty string is still returned. -/
theorem c6_counterexample :
    (read_all_items (some "") none none
        [⟨"A", Value.vStr "Pen", Value.vNull, Value.vStr "Electronics", []⟩]).items =
      some [dict_factory ⟨"A", Value.vStr "Pen", Value.vNull, Value.vStr "Electronics", []⟩] ∧
    sqlLowerEq (Value.vStr "Electronics") "" = false := by
  exact ⟨by decide, by decide⟩

/-- C6 witness: with min price 10 and max price 20 only the item priced
inside the inclusive bounds is returned. -/
theorem c6_witness :
    (∀ it ∈ ([⟨"A", Value.vStr "P", Value.vNum 15, Value.vNull, []⟩,
        ⟨"B", Value.vStr "Q", Value.vNum 25, Value.vNull, []⟩] : Store),
      it.price.isNumOrNull = true) ∧
    (read_all_items none (some 10) (some 20)
        [⟨"A", Value.vStr "P", Value.vNum 15, Value.vNull, []⟩,
          ⟨"B", Value.vStr "Q", Value.vNum 25, Value.vNull, []⟩]).items =
      some ((List.filter (specMatches none (some 10) (some 20))
          [⟨"A", Value.vStr "P", Value.vNum 15, Value.vNull, []⟩,
            ⟨"B", Value.vStr "Q", Value.vNum 25, Value.vNull, []⟩]).map dict_factory) ∧
    List.filter (specMatches none (some 10) (some 20))
        [⟨"A", Value.vStr "P", Value.vNum 15, Value.vNull, []⟩,
          ⟨"B", Value.vStr "Q", Value.vNum 25, Value.vNull, []⟩] =
      [⟨"A", Value.vStr "P", Value.vNum 15, Value.vNull, []⟩] :=
  ⟨by decide,
    (c6_read_all_filters none (some 10) (some 20)
      [⟨"A", Value.vStr "P", Value.vNum 15, Value.vNull, []⟩,
        ⟨"B", Value.vStr "Q", Value.vNum 25, Value.vNull, []⟩] (by decide)).2.1,
    by decide⟩

/-! ### Claim C1 -/

/-- C1, amended: for a valid create (non-empty mapping with a non-empty
string name) that also submits price and category keys of the column
types, with a fresh generated id, create succeeds returning that id, and
a subsequent read of the id returns exactly the submitted attributes plus
the server-assigned id.  (When price or category is not submitted, the
read result additionally reports those columns as null, so the
as-stated round-trip fails; the id hypotheses model uuid4 freshness.) -/
theorem c1_create_read_roundtrip (d : PyDict) (newId : String) (store : Store)
    (hwf : PyDict.WF d)
    (hK : d.hasKey "name" = true)
    (hT : (d.lookupD "name" Value.vNull).truthy = true)
    (_hTy : (d.lookupD "name" Value.vNull).isStr = true)
    (hpk : d.hasKey "price" = true)
    (_hpTy : (d.lookupD "price" Value.vNull).isNumOrNull = true)
    (hck : d.hasKey "category" = true)
    (_hcTy : (d.lookupD "category" Value.vNull).isStrOrNull = true)
    (hid0 : newId ≠ "")
    (hfresh : ∀ it ∈ store, it.id ≠ newId) :
    (create_item (.dict d) newId store).result.status = Status.success ∧
    (create_item (.dict d) newId store).result.item_id = some newId ∧
    (read_item newId (create_item (.dict d) newId store).store).item =
      some (dict_factory (createdRow d newId)) ∧
    PyDict.equiv (dict_factory (createdRow d newId))
      (d.setItem "id" (Value.vStr newId)) = true := by
  have h1 : d.isEmpty = false := PyDict.isEmptyFalse_of_hasKey hK
  have h2 : (!(d.hasKey "name") || !((d.lookupD "name" Value.vNull).truthy)) = false := by
    rw [hK, hT]
    rfl
  have hany : store.any (fun x => x.id == newId) = false := by
    rw [List.any_eq_false]
    intro x hx
    simp [hfresh x hx]
  have hout : create_item (.dict d) newId store =
      ⟨⟨.success, some (.itemCreated (d.lookupD "name" Value.vNull) newId),
          some newId, none, none, none⟩,
        store ++ [createdRow d newId],
        .dict (PyDict.erase (PyDict.erase (PyDict.erase d "name") "price") "category")⟩ := by
    rw [create_item.eq_def]
    simp only
    rw [if_neg (by simp [h1]), if_neg (by simp [h2]), if_neg (by simp [hany])]
    rfl
  have hread : (read_item newId (store ++ [createdRow d newId])).item =
      some (dict_factory (createdRow d newId)) := by
    rw [read_item, if_neg (by simp [hid0])]
    rw [List.find?_append,
      List.find?_eq_none.mpr (fun x hx => by simp [hfresh x hx]),
      Option.none_or,
      List.find?_cons_of_pos _ (by simp [createdRow])]
  have hd3WF : PyDict.WF
      (PyDict.erase (PyDict.erase (PyDict.erase d "name") "price") "category") :=
    PyDict.WF_erase _ _ (PyDict.WF_erase _ _ (PyDict.WF_erase _ _ hwf))
  have hbaseWF : PyDict.WF [("id", Value.vStr newId),
      ("name", d.lookupD "name" Value.vNull),
      ("price", PyDict.lookupD (d.erase "name") "price" Value.vNull),
      ("category", PyDict.lookupD ((d.erase "name").erase "price") "category" Value.vNull)] := by
    unfold PyDict.WF
    rw [show List.map Prod.fst ([("id", Value.vStr newId),
      ("name", d.lookupD "name" Value.vNull),
      ("price", PyDict.lookupD (d.erase "name") "price" Value.vNull),
      ("category", PyDict.lookupD ((d.erase "name").erase "price") "category"
        Value.vNull)] : PyDict) = ["id", "name", "price", "category"] from rfl]
    decide
  have hfactWF : PyDict.WF (dict_factory (createdRow d newId)) := by
    simp only [dict_factory, createdRow]
    exact PyDict.WF_setItem _ _ _ (PyDict.WF_updateWith _ _ hbaseWF)
  have hsetWF : PyDict.WF (d.setItem "id" (Value.vStr newId)) :=
    PyDict.WF_setItem _ _ _ hwf
  have hname1 : d.lookup? "name" = some (d.lookupD "name" Value.vNull) :=
    PyDict.lookup?_eq_some_lookupD hK _
  have hpk2 : (d.erase "name").hasKey "price" = true := by
    rw [PyDict.hasKey_erase, if_neg (by decide)]
    exact hpk
  have hprice1 : PyDict.lookup? (d.erase "name") "price" =
      some (PyDict.lookupD (d.erase "name") "price" Value.vNull) :=
    PyDict.lookup?_eq_some_lookupD hpk2 _
  have hprice2 : d.lookup? "price" =
      some (PyDict.lookupD (d.erase "name") "price" Value.vNull) := by
    rw [← PyDict.lookup?_erase_of_ne d "name" "price" (by decide)]
    exact hprice1
  have hck2 : ((d.erase "name").erase "price").hasKey "category" = true := by
    rw [PyDict.hasKey_erase, if_neg (by decide), PyDict.hasKey_erase, if_neg (by decide)]
    exact hck
  have hcat1 : PyDict.lookup? ((d.erase "name").erase "price") "category" =
      some (PyDict.lookupD ((d.erase "name").erase "price") "category" Value.vNull) :=
    PyDict.lookup?_eq_some_lookupD hck2 _
  have hcat2 : d.lookup? "category" =
      some (PyDict.lookupD ((d.erase "name").erase "price") "category" Value.vNull) := by
    rw [← PyDict.lookup?_erase_of_ne d "name" "category" (by decide),
      ← PyDict.lookup?_erase_of_ne (d.erase "name") "price" "category" (by decide)]
    exact hcat1
  have hlook : ∀ k, PyDict.lookup? (dict_factory (createdRow d newId)) k =
      PyDict.lookup? (d.setItem "id" (Value.vStr newId)) k := by
    intro k
    rw [PyDict.lookup?_setItem]
    simp only [dict_factory, createdRow]
    rw [PyDict.lookup?_setItem]
    by_cases hk1 : k = "id"
    · simp [hk1]
    · rw [if_neg (by simp [Ne.symm hk1]), if_neg (by simp [Ne.symm hk1])]
      rw [PyDict.lookup?_updateWith _ _ hd3WF]
      by_cases hk2 : k = "name"
      · subst hk2
        have hd3n : PyDict.lookup?
            (PyDict.erase (PyDict.erase (PyDict.erase d "name") "price") "category")
              "name" = none := by
          rw [PyDict.lookup?_erase_of_ne _ _ _ (by decide),
            PyDict.lookup?_erase_of_ne _ _ _ (by decide)]
          exact PyDict.lookup?_erase_self d "name"
        rw [hd3n, hname1]
        simp [PyDict.lookup?_cons]
      · by_cases hk3 : k = "price"
        · subst hk3
          have hd3p : PyDict.lookup?
              (PyDict.erase (PyDict.erase (PyDict.erase d "name") "price") "category")
                "price" = none := by
            rw [PyDict.lookup?_erase_of_ne _ _ _ (by decide)]
            exact PyDict.lookup?_erase_self _ "price"
          rw [hd3p, hprice2]
          simp [PyDict.lookup?_cons]
        · by_cases hk4 : k = "category"
          · subst hk4
            have hd3c : PyDict.lookup?
                (PyDict.erase (PyDict.erase (PyDict.erase d "name") "price") "category")
                  "category" = none :=
              PyDict.lookup?_erase_self _ "category"
            rw [hd3c, hcat2]
            simp [PyDict.lookup?_cons]
          · have hd3k : PyDict.lookup?
                (PyDict.erase (PyDict.erase (PyDict.erase d "name") "price") "category") k =
                  d.lookup? k := by
              rw [PyDict.lookup?_erase_of_ne _ _ _ (Ne.symm hk4),
                PyDict.lookup?_erase_of_ne _ _ _ (Ne.symm hk3),
                PyDict.lookup?_erase_of_ne _ _ _ (Ne.symm hk2)]
            rw [hd3k]
            cases hdk : d.lookup? k
            · simp [PyDict.lookup?_cons, PyDict.lookup?_nil,
                Ne.symm hk1, Ne.symm hk2, Ne.symm hk3, Ne.symm hk4]
            · rfl
  refine ⟨by rw [hout], by rw [hout], ?_, ?_⟩
  · rw [hout]
    exact hread
  · exact PyDict.equiv_of_lookup hfactWF hsetWF hlook

/-- C1 counterexample: a valid create that submits only a name: the
subsequent read reports price and category as null keys, so the result is
not equal (as a mapping) to the submitted attributes plus the id. -/
theorem c1_counterexample :
    (create_item (.dict [("name", Value.vStr "Pen")]) "X" []).result.status =
      Status.success ∧
    (read_item "X" (create_item (.dict [("name", Value.vStr "Pen")]) "X" []).store).item =
      some [("id", Value.vStr "X"), ("name", Value.vStr "Pen"),
        ("price", Value.vNull), ("category", Value.vNull)] ∧
    PyDict.equiv [("id", Value.vStr "X"), ("name", Value.vStr "Pen"),
        ("price", Value.vNull), ("category", Value.vNull)]
      (PyDict.setItem [("name", Value.vStr "Pen")] "id" (Value.vStr "X")) = false := by
  exact ⟨by decide, by decide, by decide⟩

/-- C1 witness: the round-trip on the example of the spec (name, price,
category and stock submitted). -/
theorem c1_witness :
    (create_item (.dict [("name", Value.vStr "Laptop"), ("price", Value.vNum 1200),
        ("category", Value.vStr "Electronics"), ("stock", Value.vNum 50)]) "X" []).result.status =
      Status.success ∧
    (read_item "X" (create_item (.dict [("name", Value.vStr "Laptop"),
        ("price", Value.vNum 1200), ("category", Value.vStr "Electronics"),
        ("stock", Value.vNum 50)]) "X" []).store).item =
      some (dict_factory (createdRow [("name", Value.vStr "Laptop"),
        ("price", Value.vNum 1200), ("category", Value.vStr "Electronics"),
        ("stock", Value.vNum 50)] "X")) ∧
    PyDict.equiv
      (dict_factory (createdRow [("name", Value.vStr "Laptop"), ("price", Value.vNum 1200),
        ("category", Value.vStr "Electronics"), ("stock", Value.vNum 50)] "X"))
      (PyDict.setItem [("name", Value.vStr "Laptop"), ("price", Value.vNum 1200),
        ("category", Value.vStr "Electronics"), ("stock", Value.vNum 50)] "id"
        (Value.vStr "X")) = true := by
  have h := c1_create_read_roundtrip
    [("name", Value.vStr "Laptop"), ("price", Value.vNum 1200),
      ("category", Value.vStr "Electronics"), ("stock", Value.vNum 50)] "X" []
    (by decide) (by decide) (by decide) (by decide) (by decide) (by decide)
    (by decide) (by decide) (by decide) (by intro it hm; cases hm)
  exact ⟨h.1, h.2.2.1, h.2.2.2⟩
